import Mathlib

/-!
Verification of the Signal Booster network optimization engine.

Shallow embedding of the diagnostic scoring, parameter search, configuration
resolution, apply/restore orchestration and monitor loop of the
`signal_booster` package, together with proofs of the claimed properties.

Measurement results coming from subprocess probes are abstracted as explicit
inputs (an `Option` models a sub-measurement that did or did not produce a
value, mirroring the corresponding `if` guard in the source); floating point
arithmetic is modelled over `ℚ`.
-/

namespace SignalBooster

/-- Operating systems distinguished by `platform.system()` branching in the
source (`"Windows"`, `"Linux"`, `"Darwin"`, anything else). -/
inductive OSType where
  | windows
  | linux
  | darwin
  | other
deriving DecidableEq, Repr

/-! ## Diagnostic Engine: congestion score (`core.py`, `_analyze_network_congestion`) -/

/-- Result of `net_utils.measure_latency` as consumed by
`_analyze_network_congestion`: parsed min/avg/max round trip times (ms). -/
structure LatencyResults where
  lmin : ℚ
  lavg : ℚ
  lmax : ℚ
deriving DecidableEq, Repr

/-- Abstract inputs of one `_analyze_network_congestion` pass.  Each field is
`none` when the corresponding sub-measurement did not produce a value (guard
failed or an exception was caught in the source). -/
structure CongestionInputs where
  /-- `measure_latency` result (guard `if latency_results:`). -/
  latency : Option LatencyResults
  /-- Windows `Get-NetAdapterStatistics`: (ReceivedPackets, ReceivedDiscarded),
  present when the interface is active and both regexes matched. -/
  winStats : Option (ℕ × ℕ)
  /-- Linux `/proc/net/dev`: (packets, errs, drop) for the active interface. -/
  linStats : Option (ℕ × ℕ × ℕ)
  /-- macOS `netstat -i`: (packets, errors) for the active interface. -/
  macStats : Option (ℕ × ℕ)
  /-- 1-minute load average, present when `os.getloadavg` exists. -/
  loadAvg : Option ℚ
  /-- `psutil.cpu_percent()` (Windows branch of factor 3). -/
  cpuPercent : Option ℚ
deriving DecidableEq, Repr

/-- Factor 1 of `_analyze_network_congestion` (lines 657-671): jitter
normalized by `min(100, max - min)` and average latency normalized by
`min(100, max(0, (avg - 10) / 190 * 100))`. -/
def latency_factors (lat : Option LatencyResults) : List ℚ :=
  match lat with
  | some l => [min 100 (l.lmax - l.lmin), min 100 (max 0 ((l.lavg - 10) / 190 * 100))]
  | none => []

/-- Factor 2 of `_analyze_network_congestion` (lines 673-750): per-OS interface
error/drop ratios, each `min(100, count / max(1, packets) * 100)`, appended
only when the packet counter is positive. -/
def interface_stat_factors (os : OSType) (ci : CongestionInputs) : List ℚ :=
  match os with
  | .windows =>
    match ci.winStats with
    | some (received, dropped) =>
      if 0 < received then [min 100 ((dropped : ℚ) / ((max 1 received : ℕ) : ℚ) * 100)] else []
    | none => []
  | .linux =>
    match ci.linStats with
    | some (packets, errors, drops) =>
      if 0 < packets then
        [min 100 ((errors : ℚ) / ((max 1 packets : ℕ) : ℚ) * 100),
         min 100 ((drops : ℚ) / ((max 1 packets : ℕ) : ℚ) * 100)]
      else []
    | none => []
  | .darwin =>
    match ci.macStats with
    | some (packets, errors) =>
      if 0 < packets then [min 100 ((errors : ℚ) / ((max 1 packets : ℕ) : ℚ) * 100)] else []
    | none => []
  | .other => []

/-- Factor 3 of `_analyze_network_congestion` (lines 752-767): halved load
factor when `os.getloadavg` exists, otherwise on Windows a constant 50 when
CPU utilization exceeds 80%. -/
def load_factors (os : OSType) (ci : CongestionInputs) : List ℚ :=
  match ci.loadAvg with
  | some load => [min 100 (max 0 ((load - 1) / 4 * 100)) * (1 / 2)]
  | none =>
    match os, ci.cpuPercent with
    | .windows, some cpu => if 80 < cpu then [50] else []
    | _, _ => []

/-- The `congestion_factors` list accumulated by `_analyze_network_congestion`. -/
def congestion_factors (os : OSType) (ci : CongestionInputs) : List ℚ :=
  latency_factors ci.latency ++ interface_stat_factors os ci ++ load_factors os ci

/-- `_analyze_network_congestion` (core.py lines 652-778): the arithmetic mean
of the accumulated factors, or the documented default 30.0 when no factor was
measured. -/
def analyze_network_congestion (os : OSType) (ci : CongestionInputs) : ℚ :=
  let fs := congestion_factors os ci
  if fs.isEmpty then 30 else fs.sum / fs.length

/-! ## Diagnostic Engine: interference score (`core.py`, `_check_for_interference`) -/

/-- Abstract inputs of one `_check_for_interference` pass. -/
structure InterferenceInputs where
  /-- Number of scanned networks on the current channel; `none` when the
  current channel could not be determined (or the OS branch raised). -/
  coChannelCount : Option ℕ
  /-- Signal strength samples collected by the three
  `_measure_signal_strength()` calls of factor 2. -/
  signalSamples : List ℤ
  /-- Current channel parsed from `netsh wlan show interfaces`
  (Windows-only factor 3). -/
  winChannel : Option ℤ
deriving DecidableEq, Repr

/-- Maximum of a nonempty list given as head and tail (Python `max(samples)`). -/
def sampleMax (a : ℤ) (l : List ℤ) : ℤ := l.foldl max a

/-- Minimum of a nonempty list given as head and tail (Python `min(samples)`). -/
def sampleMin (a : ℤ) (l : List ℤ) : ℤ := l.foldl min a

/-- The `interference_factors` list accumulated by `_check_for_interference`
(lines 783-968): co-channel congestion `min(100, count * 10)` if positive,
signal variation `min(100, (max - min) * 5)` if positive, and on Windows a
constant 30 band penalty when the current channel lies in 1..13. -/
def interference_factors (os : OSType) (ii : InterferenceInputs) : List ℚ :=
  (match ii.coChannelCount with
   | some n =>
     let cc : ℚ := min 100 ((n : ℚ) * 10)
     if 0 < cc then [cc] else []
   | none => []) ++
  (match ii.signalSamples with
   | [] => []
   | s :: rest =>
     let variation : ℤ := sampleMax s rest - sampleMin s rest
     if 0 < variation then [min 100 ((variation : ℚ) * 5)] else []) ++
  (match os, ii.winChannel with
   | .windows, some ch => if 1 ≤ ch ∧ ch ≤ 13 then [30] else []
   | _, _ => [])

/-- `_check_for_interference` (core.py lines 780-978): the arithmetic mean of
the accumulated factors, or the documented default 20.0 when no factor was
measured. -/
def check_for_interference (os : OSType) (ii : InterferenceInputs) : ℚ :=
  let fs := interference_factors os ii
  if fs.isEmpty then 20 else fs.sum / fs.length

/-! ## Parameter Search: MTU discovery (`network/utils.py`,
`_find_windows_optimal_mtu` / `_find_linux_optimal_mtu`) -/

/-- Loop state of the MTU binary search: `maxM`/`minM` are the Python
`max_mtu`/`min_mtu` bounds, `opt` is `optimal_mtu`, `probes` counts ping
probes issued, `succ` records whether any probe succeeded. -/
structure MtuState where
  maxM : ℕ
  minM : ℕ
  opt : ℕ
  probes : ℕ
  succ : Bool
deriving DecidableEq, Repr

/-- The `while max_mtu - min_mtu > 8` loop shared by the Windows and Linux MTU
searches (utils.py lines 247-261 and 281-295).  `pingFails p` abstracts the
outcome of the don't-fragment ping with payload `p` bytes (`True` when the
output signals fragmentation or loss); the probe payload is `test_mtu - 28`,
the 28-byte IP+ICMP header being accounted for in the probe size.  `fuel`
bounds the number of iterations; `mtuLoop_gap_le` shows the initial fuel of
`find_windows_optimal_mtu` is never exhausted. -/
def mtuLoop (pingFails : ℕ → Bool) : ℕ → MtuState → MtuState
  | 0, s => s
  | fuel + 1, s =>
    if 8 < s.maxM - s.minM then
      let test := (s.maxM + s.minM) / 2
      if pingFails (test - 28) then
        mtuLoop pingFails fuel { s with maxM := test, probes := s.probes + 1 }
      else
        mtuLoop pingFails fuel
          { s with minM := test, opt := test, probes := s.probes + 1, succ := true }
    else s

/-- Initial state of the search: `max_mtu = 1500`, `min_mtu = 1200`,
`optimal_mtu = 1500` (utils.py lines 242-244). -/
def mtuInit : MtuState := ⟨1500, 1200, 1500, 0, false⟩

/-- `_find_windows_optimal_mtu` (utils.py lines 238-270): runs the binary
search from `mtuInit` and returns `optimal_mtu`.  (`_find_linux_optimal_mtu`
is line-for-line the same search with Linux ping arguments.) -/
def find_windows_optimal_mtu (pingFails : ℕ → Bool) : ℕ :=
  (mtuLoop pingFails 300 mtuInit).opt

/-- Synthetic network of the claim: a don't-fragment probe is delivered iff
its total size (payload + 28 header bytes) is at most 1400. -/
def failsAbove1400 : ℕ → Bool := fun payload => decide (1400 < payload + 28)

/-! ## Parameter Search: channel selection (`platform/windows.py`
`find_windows_best_channel`, `platform/macos.py` `find_macos_best_channel`) -/

/-- Number of scanned networks within 2 channels of `p`
(windows.py lines 186-190: `abs(channel - ch) <= 2`, full weight). -/
def windows_overlap_count (nets : List ℕ) (p : ℕ) : ℕ :=
  nets.countP (fun ch => ((p : ℤ) - (ch : ℤ)).natAbs ≤ 2)

/-- `find_windows_best_channel` (windows.py lines 150-198) on the parsed list
of channel numbers of the scanned networks: 6 on an empty scan, otherwise the
first of the primary channels 1, 6, 11 whose overlap count is minimal
(Python `min` over the insertion-ordered dict keeps the earliest minimum). -/
def find_windows_best_channel (nets : List ℕ) : ℕ :=
  if nets.isEmpty then 6
  else
    let c1 := windows_overlap_count nets 1
    let c6 := windows_overlap_count nets 6
    let c11 := windows_overlap_count nets 11
    if c1 ≤ c6 then (if c1 ≤ c11 then 1 else 11)
    else (if c6 ≤ c11 then 6 else 11)

/-- The eleven 2.4 GHz channels of the macOS `channel_usage` dict
(macos.py line 124). -/
def macosChannels : List ℕ := [1, 2, 3, 4, 5, 6, 7, 8, 9, 10, 11]

/-- `channel_usage[k]` after the macOS counting loop (macos.py lines 131-145):
each network on a channel in 1..11 adds 1 to its own channel and 0.5 to every
distinct channel at distance at most 2 (the `range(max(1, c-2), min(11, c+2)+1)`
clamp is the identity for `k` in 1..11). -/
def macUsage (nets : List ℕ) (k : ℕ) : ℚ :=
  (nets.countP (fun c => 1 ≤ c ∧ c ≤ 11 ∧ c = k) : ℚ) +
    (1 / 2) * (nets.countP
      (fun c => 1 ≤ c ∧ c ≤ 11 ∧ 1 ≤ ((c : ℤ) - (k : ℤ)).natAbs ∧ ((c : ℤ) - (k : ℤ)).natAbs ≤ 2) : ℚ)

/-- Decidable "channel `k` has minimal usage" predicate; `best_channels` of
macos.py lines 147-156 collects, in ascending channel order, exactly the
channels satisfying it. -/
def macMinimal (nets : List ℕ) (k : ℕ) : Bool :=
  decide (∀ j ∈ macosChannels, macUsage nets k ≤ macUsage nets j)

/-- `best_channels`: the channels of 1..11 with minimal usage, in scan order. -/
def macBest (nets : List ℕ) : List ℕ :=
  macosChannels.filter (macMinimal nets)

/-- `find_macos_best_channel` (macos.py lines 114-188) with the airport scan
abstracted: `none` means no scan output was available (the function falls
through its alternatives to the final `return 6`; the `system_profiler`
fallback is likewise unavailable in that case), `some nets` is the parsed
channel column of the scan table.  Among the minimal-usage channels the first
of 1, 6, 11 is preferred, else the lowest-numbered one. -/
def find_macos_best_channel (scan : Option (List ℕ)) : ℕ :=
  match scan with
  | none => 6
  | some nets =>
    let best := macBest nets
    match best.filter (fun k => k = 1 ∨ k = 6 ∨ k = 11) with
    | p :: _ => p
    | [] => best.headD 6

/-- Modelled from the spec: the claim's weighted congestion count of a
channel, in which a scanned network contributes weight 1.0 on the same
channel, 0.5 at distance 1-2, and 0 beyond.  Stated from the spec's words to
compare against the code's bucketing; the code itself is embedded above. -/
def claim_weighted_count (nets : List ℕ) (k : ℕ) : ℚ :=
  (nets.map (fun c =>
    if c = k then (1 : ℚ)
    else if ((c : ℤ) - (k : ℤ)).natAbs ≤ 2 then 1 / 2
    else 0)).sum

/-! ## Orchestrator feature flags (`core.py`, `_set_feature_flags`) -/

/-- The four optimization levels, ordered `light < standard < aggressive <
extreme` (advanced_config.py `OptimizationLevel`). -/
inductive OptimizationLevel where
  | light
  | standard
  | aggressive
  | extreme
deriving DecidableEq, Repr, Fintype

/-- Position of a level in the documented order. -/
def levelRank : OptimizationLevel → ℕ
  | .light => 0
  | .standard => 1
  | .aggressive => 2
  | .extreme => 3

/-- The five boolean feature flags set by `_set_feature_flags`. -/
structure FeatureFlags where
  dns_prefetching : Bool
  channel_switching : Bool
  enable_deep_packet_inspection : Bool
  enable_bandwidth_control : Bool
  packet_prioritization : Bool
deriving DecidableEq, Repr

/-- Level-derived defaults of `_set_feature_flags` (core.py lines 106-129). -/
def defaultFlags : OptimizationLevel → FeatureFlags
  | .light => ⟨true, true, false, false, false⟩
  | .standard => ⟨true, true, false, true, true⟩
  | .aggressive => ⟨true, true, true, true, true⟩
  | .extreme => ⟨true, true, true, true, true⟩

/-- Caller-supplied `advanced_settings` overrides for the feature flags;
`none` means the key is absent from the settings dict. -/
structure FlagOverrides where
  dns_prefetching : Option Bool
  channel_switching : Option Bool
  deep_packet_inspection : Option Bool
  bandwidth_control : Option Bool
  packet_prioritization : Option Bool
deriving DecidableEq, Repr

/-- The empty `advanced_settings` dict. -/
def noOverrides : FlagOverrides := ⟨none, none, none, none, none⟩

/-- `_set_feature_flags` (core.py lines 103-141): level-derived defaults, then
each flag individually overridden when present in `advanced_settings`. -/
def set_feature_flags (lvl : OptimizationLevel) (ov : FlagOverrides) : FeatureFlags :=
  let d := defaultFlags lvl
  { dns_prefetching := ov.dns_prefetching.getD d.dns_prefetching
    channel_switching := ov.channel_switching.getD d.channel_switching
    enable_deep_packet_inspection := ov.deep_packet_inspection.getD d.enable_deep_packet_inspection
    enable_bandwidth_control := ov.bandwidth_control.getD d.enable_bandwidth_control
    packet_prioritization := ov.packet_prioritization.getD d.packet_prioritization }

/-- Pointwise implication of feature flags: every flag enabled on the left is
enabled on the right. -/
def flagsLe (f g : FeatureFlags) : Prop :=
  (f.dns_prefetching = true → g.dns_prefetching = true) ∧
  (f.channel_switching = true → g.channel_switching = true) ∧
  (f.enable_deep_packet_inspection = true → g.enable_deep_packet_inspection = true) ∧
  (f.enable_bandwidth_control = true → g.enable_bandwidth_control = true) ∧
  (f.packet_prioritization = true → g.packet_prioritization = true)

instance (f g : FeatureFlags) : Decidable (flagsLe f g) := by
  unfold flagsLe
  infer_instance

/-! ## Apply sequence (`advanced_config.py`, `apply_optimizations`) -/

/-- Shape of the configuration passed to `apply_optimizations`: which step
guards hold (`"tcp" in config`, `"wifi" in config`,
`"dns" in config and "nameservers" in config["dns"]`). -/
structure ApplyConfigShape where
  hasTcp : Bool
  hasWifi : Bool
  hasDnsNameservers : Bool
deriving DecidableEq, Repr

/-- Abstract outcome of each apply step's `try` body: `true` means the body
ran to completion (the step name is appended to `applied`), `false` means an
exception was raised (the step name is appended to `failed`). -/
structure ApplyOutcomes where
  tcpOk : Bool
  wifiOk : Bool
  dnsOk : Bool
deriving DecidableEq, Repr

/-- The report built by `apply_optimizations` (advanced_config.py line 320). -/
structure ApplyResults where
  applied : List String
  failed : List String
  success : Bool
deriving DecidableEq, Repr

/-- The ordered apply steps of `apply_optimizations` for one platform, as
(step name, guard holds, try body succeeded): the two platform steps of
`_apply_<os>_optimizations` followed by the cross-platform DNS step. -/
def applySteps (os : OSType) (cfg : ApplyConfigShape) (out : ApplyOutcomes) :
    List (String × Bool × Bool) :=
  (match os with
   | .windows => [("windows_tcp", cfg.hasTcp, out.tcpOk), ("windows_wifi", cfg.hasWifi, out.wifiOk)]
   | .linux => [("linux_tcp", cfg.hasTcp, out.tcpOk), ("linux_wifi", cfg.hasWifi, out.wifiOk)]
   | .darwin => [("macos_tcp", cfg.hasTcp, out.tcpOk), ("macos_wifi", cfg.hasWifi, out.wifiOk)]
   | .other => []) ++
  [("dns_servers", cfg.hasDnsNameservers, out.dnsOk)]

/-- `apply_optimizations` (advanced_config.py lines 310-352): every step whose
guard holds is attempted; a success is recorded in `applied`, a failure in
`failed`, and the sequence continues either way.  `success` is set at the end
to `len(results["applied"]) > 0`. -/
def apply_optimizations (os : OSType) (cfg : ApplyConfigShape) (out : ApplyOutcomes) :
    ApplyResults :=
  let present := (applySteps os cfg out).filter (fun s => s.2.1)
  let applied := (present.filter (fun s => s.2.2)).map (fun s => s.1)
  let failed := (present.filter (fun s => !s.2.2)).map (fun s => s.1)
  { applied := applied, failed := failed, success := !applied.isEmpty }

/-! ## Stop sequence (`core.py`, `stop_boosting` / `_restore_original_settings`) -/

/-- Externally visible actions of `stop_boosting`, in program order.
`discard_baseline` is included so that its absence from every trace states
that `self.original_settings` is never cleared. -/
inductive StopEvent where
  | set_active_false
  | set_running_false
  | visualizer_stop
  | restore_settings
  | join_monitor (timeout : ℚ)
  | discard_baseline
deriving DecidableEq, Repr

/-- `stop_boosting` (core.py lines 1782-1798) as its sequence of actions:
a no-op when neither `active` nor `is_running`, otherwise it clears both
flags, stops the visualizer, restores the original settings, and only then
joins the monitor thread (timeout 2.0 s) if one is alive. -/
def stop_boosting (active running threadAlive : Bool) : List StopEvent :=
  if !active && !running then []
  else
    [StopEvent.set_active_false, StopEvent.set_running_false, StopEvent.visualizer_stop,
     StopEvent.restore_settings] ++
    (if threadAlive then [StopEvent.join_monitor 2] else [])

/-- Windows TCP parameters captured by `_get_windows_tcp_params` (core.py
lines 237-276); a field is `none` when its regex / registry read failed
(registry defaults make `window_size`, `max_syn_retransmissions` and `ttl`
present unless the whole read raised). -/
structure WinTcpParams where
  autotuning : Option String
  congestion_provider : Option String
  window_size : Option ℕ
  max_syn_retransmissions : Option ℕ
  ttl : Option ℕ
deriving DecidableEq, Repr

/-- Windows power settings captured by `_get_windows_power_settings`. -/
structure WinPowerSettings where
  power_saving_enabled : Bool
  selective_suspend : Bool
deriving DecidableEq, Repr

/-- Windows QoS settings captured by `_get_windows_qos_settings`. -/
structure WinQosSettings where
  packet_scheduler_enabled : Bool
  existing_rules : List String
deriving DecidableEq, Repr

/-- The Windows `BaselineSettings` snapshot stored in
`self.original_settings['windows']` by `_backup_windows_settings`. -/
structure WinBaseline where
  tcp_params : Option WinTcpParams
  power_settings : Option WinPowerSettings
  qos_settings : Option WinQosSettings
deriving DecidableEq, Repr

/-- Parameter names present in a captured Windows baseline. -/
def capturedParams (b : WinBaseline) : List String :=
  (match b.tcp_params with
   | some t =>
     (if t.autotuning.isSome then ["autotuning"] else []) ++
     (if t.congestion_provider.isSome then ["congestion_provider"] else []) ++
     (if t.window_size.isSome then ["window_size"] else []) ++
     (if t.max_syn_retransmissions.isSome then ["max_syn_retransmissions"] else []) ++
     (if t.ttl.isSome then ["ttl"] else [])
   | none => []) ++
  (match b.power_settings with
   | some _ => ["power_saving_enabled", "selective_suspend"]
   | none => []) ++
  (match b.qos_settings with
   | some _ => ["packet_scheduler_enabled", "existing_rules"]
   | none => [])

/-- The restore operations issued by the Windows branch of
`_restore_original_settings`. -/
inductive RestoreCall where
  | set_autotuning (level : String)
  | set_congestion_provider (p : String)
  | delete_qos_rule (name : String)
  | enable_power_saving
deriving DecidableEq, Repr

/-- Windows branch of `_restore_original_settings` (core.py lines 1806-1855):
when `window_size` was captured it re-applies the autotuning level (with
default `"normal"`), when `congestion_provider` was captured it re-applies it;
QoS restoration deletes the two firewall rules the booster added; power
restoration re-enables power saving when it had been enabled and an interface
is active. -/
def restore_original_settings (hasActiveInterface : Bool) (b : WinBaseline) :
    List RestoreCall :=
  (match b.tcp_params with
   | some t =>
     (if t.window_size.isSome then [RestoreCall.set_autotuning (t.autotuning.getD "normal")]
      else []) ++
     (match t.congestion_provider with
      | some p => [RestoreCall.set_congestion_provider p]
      | none => [])
   | none => []) ++
  (match b.qos_settings with
   | some _ =>
     [RestoreCall.delete_qos_rule "SignalBoosterRealTime",
      RestoreCall.delete_qos_rule "SignalBoosterWeb"]
   | none => []) ++
  (match b.power_settings with
   | some p =>
     if hasActiveInterface && p.power_saving_enabled then [RestoreCall.enable_power_saving]
     else []
   | none => [])

/-- The captured baseline parameter a restore call re-applies: the autotuning
level, the congestion provider and the power-saving flag; the rule deletions
consume no captured parameter. -/
def passedParams (calls : List RestoreCall) : List String :=
  calls.flatMap (fun c =>
    match c with
    | .set_autotuning _ => ["autotuning"]
    | .set_congestion_provider _ => ["congestion_provider"]
    | .delete_qos_rule _ => []
    | .enable_power_saving => ["power_saving_enabled"])

/-! ## Monitor loop (`core.py`, `_monitor_and_optimize`) -/

/-- Actions of one monitor-loop iteration, in program order. -/
inductive MonitorAction where
  | measure_metrics
  | add_data_point
  | display_metrics
  | display_progress
  | apply_optimizations
  | display_actions
  | sleep_interval
deriving DecidableEq, Repr

/-- One iteration of the `while self.active` monitor loop (core.py lines
1696-1726) given the session's target signal strength (85 in `__init__`) and
the freshly measured download speed and signal: measurements and displays
always run, and `_apply_optimizations` is re-run exactly when
`current_signal < target_signal_strength`.  The measured speed and the
session's `target_speed` are not consulted. -/
def monitor_iteration (targetSignal : ℤ) (speed : ℚ) (signal : ℤ) : List MonitorAction :=
  [MonitorAction.measure_metrics, MonitorAction.add_data_point, MonitorAction.display_metrics] ++
  (if signal < targetSignal then
    [MonitorAction.display_progress, MonitorAction.apply_optimizations]
   else []) ++
  [MonitorAction.display_actions, MonitorAction.sleep_interval]

/-! ## GUI metrics (`core.py`, `get_current_metrics`) -/

/-- Update of `self.optimization_level_value` performed by one
`get_current_metrics` call (core.py lines 1992-1999): when the value is 0 and
the booster is running it is seeded to 25, then, when running, it becomes
`min(98, value + r)` for the fresh `random.uniform(0, 0.8)` draw `r`. -/
def get_current_metrics_value (isRunning : Bool) (v r : ℚ) : ℚ :=
  let v1 := if v = 0 ∧ isRunning = true then 25 else v
  if isRunning then min 98 (v1 + r) else v1

/-- `optimization_level_value` after a sequence of `get_current_metrics`
calls while running, given the sequence of random draws. -/
def metricsValueAfter (v : ℚ) (rs : List ℚ) : ℚ :=
  rs.foldl (fun acc r => get_current_metrics_value true acc r) v

/-! ## Profile resolution (`advanced_config.py`, `get_config_for_level` /
`_merge_configs`)

Python dicts are modelled as insertion-ordered association lists.  The crucial
point of the source is aliasing: `result[g] = self.configs[g][level]` stores a
reference, so the recursive `_merge_configs` mutates the static default
tables in place.  The embedding threads the store explicitly and tags each
resolved group with whether it still aliases the store. -/

/-- Scalar parameter values occurring in the configuration tables. -/
inductive Scalar where
  | num (n : ℤ)
  | str (s : String)
  | bool (b : Bool)
  | numList (l : List ℤ)
  | strList (l : List String)
deriving DecidableEq, Repr

/-- One parameter group: parameter name to scalar value, insertion ordered. -/
abbrev ParamDict := List (String × Scalar)

/-- A top-level value of the resolved profile or of the override document:
either a whole parameter group or a scalar replacing one. -/
inductive TopVal where
  | scalar (s : Scalar)
  | dict (d : ParamDict)
deriving DecidableEq, Repr

/-- The override document: group name to value. -/
abbrev TopDict := List (String × TopVal)

/-- The static tables `self.configs`: group name to (level-or-connection key
to parameter group).  The scalar `"version"` entry of the source dict is
omitted: it is never consulted by `get_config_for_level`. -/
abbrev ConfigStore := List (String × List (String × ParamDict))

/-- Python `d[k]` lookup on an association list. -/
def lookupA {α : Type} (d : List (String × α)) (k : String) : Option α :=
  (d.find? (fun p => p.1 = k)).map (fun p => p.2)

/-- Python `d[k] = v`: update in place when the key exists (keeping its
position), append otherwise. -/
def setA {α : Type} (d : List (String × α)) (k : String) (v : α) : List (String × α) :=
  if d.any (fun p => p.1 = k) then d.map (fun p => if p.1 = k then (k, v) else p)
  else d ++ [(k, v)]

/-- `_merge_configs` (advanced_config.py lines 294-300) at the parameter-group
level: the group values are scalars, so every override key replaces (or adds)
its entry in the base group. -/
def mergeParamDict (base ov : ParamDict) : ParamDict :=
  ov.foldl (fun b kv => setA b kv.1 kv.2) base

/-- In-place write of a merged group back into the static tables, reflecting
that the resolved group object is the stored one. -/
def storeSet (st : ConfigStore) (g lvl : String) (d : ParamDict) : ConfigStore :=
  st.map (fun p =>
    if p.1 = g then (p.1, p.2.map (fun q => if q.1 = lvl then (q.1, d) else q)) else p)

/-- An entry of the resolved profile: group name, value, and whether the value
still aliases the static tables (true for every group installed from the
defaults, false once replaced by an override value). -/
abbrev ResolvedEntry := String × TopVal × Bool

/-- Lookup in the resolved profile. -/
def lookupRes (rs : List ResolvedEntry) (k : String) : Option (TopVal × Bool) :=
  (rs.find? (fun p => p.1 = k)).map (fun p => p.2)

/-- Assignment in the resolved profile (update or append, like `setA`). -/
def setRes (rs : List ResolvedEntry) (k : String) (v : TopVal) (aliased : Bool) :
    List ResolvedEntry :=
  if rs.any (fun p => p.1 = k) then
    rs.map (fun p => if p.1 = k then (k, v, aliased) else p)
  else rs ++ [(k, v, aliased)]

/-- The store key under which an aliased group of the resolved profile lives:
the connection-type key for `connection_specific`, the level key otherwise. -/
def storeKeyFor (level conn k : String) : String :=
  if k = "connection_specific" then conn else level

/-- One step of `_merge_configs` on the resolved profile (top level): when the
key names a group present in the profile and the override value is a dict,
recurse (here: merge the flat groups) — mutating the static tables whenever
the group still aliases them — otherwise rebind the profile key to the
override value, which breaks the alias. -/
def mergeTopStep (level conn : String) (acc : List ResolvedEntry × ConfigStore)
    (kv : String × TopVal) : List ResolvedEntry × ConfigStore :=
  let (rs, st) := acc
  match lookupRes rs kv.1, kv.2 with
  | some (TopVal.dict bd, aliased), TopVal.dict vd =>
    let merged := mergeParamDict bd vd
    (setRes rs kv.1 (TopVal.dict merged) aliased,
     if aliased then storeSet st kv.1 (storeKeyFor level conn kv.1) merged else st)
  | _, _ => (setRes rs kv.1 kv.2 false, st)

/-- `get_config_for_level` (advanced_config.py lines 256-292): install the
level's five parameter groups and the connection-specific group by reference,
then merge the custom overrides.  Returns the resolved profile together with
the static tables as they stand after the call. -/
def get_config_for_level (st : ConfigStore) (level conn : String) (custom : TopDict) :
    List ResolvedEntry × ConfigStore :=
  let installed : List ResolvedEntry :=
    (["tcp", "wifi", "dns", "qos", "buffer"].filterMap (fun g =>
      (lookupA st g).bind (fun lvls =>
        (lookupA lvls level).map (fun d => (g, TopVal.dict d, true))))) ++
    (match (lookupA st "connection_specific").bind (fun m => lookupA m conn) with
     | some d => [("connection_specific", TopVal.dict d, true)]
     | none => [])
  custom.foldl (mergeTopStep level conn) (installed, st)

/-- The static default tables of `_load_default_configs` (advanced_config.py
lines 73-232). -/
def defaultConfigs : ConfigStore :=
  [("tcp",
    [("light",
      [("tcp_window_size", Scalar.num 65535), ("max_syn_backlog", Scalar.num 2048),
       ("congestion_algorithm", Scalar.str "cubic")]),
     ("standard",
      [("tcp_window_size", Scalar.num 131072), ("max_syn_backlog", Scalar.num 4096),
       ("congestion_algorithm", Scalar.str "cubic")]),
     ("aggressive",
      [("tcp_window_size", Scalar.num 262144), ("max_syn_backlog", Scalar.num 8192),
       ("congestion_algorithm", Scalar.str "bbr")]),
     ("extreme",
      [("tcp_window_size", Scalar.num 524288), ("max_syn_backlog", Scalar.num 16384),
       ("congestion_algorithm", Scalar.str "bbr"),
       ("tcp_rmem", Scalar.numList [4096, 131072, 6291456]),
       ("tcp_wmem", Scalar.numList [4096, 16384, 4194304])])]),
   ("wifi",
    [("light",
      [("power_save", Scalar.str "off"), ("beacon_interval", Scalar.num 100),
       ("txpower", Scalar.str "auto")]),
     ("standard",
      [("power_save", Scalar.str "off"), ("beacon_interval", Scalar.num 50),
       ("txpower", Scalar.str "high")]),
     ("aggressive",
      [("power_save", Scalar.str "off"), ("beacon_interval", Scalar.num 30),
       ("txpower", Scalar.str "max"), ("antenna_diversity", Scalar.str "on"),
       ("roaming_aggressiveness", Scalar.str "high")]),
     ("extreme",
      [("power_save", Scalar.str "off"), ("beacon_interval", Scalar.num 25),
       ("txpower", Scalar.str "max"), ("antenna_diversity", Scalar.str "on"),
       ("roaming_aggressiveness", Scalar.str "highest"), ("preamble", Scalar.str "short"),
       ("channel_width", Scalar.str "40MHz")])]),
   ("dns",
    [("light",
      [("nameservers", Scalar.strList ["8.8.8.8", "8.8.4.4"]),
       ("dns_cache_size", Scalar.num 512)]),
     ("standard",
      [("nameservers", Scalar.strList ["1.1.1.1", "1.0.0.1"]),
       ("dns_cache_size", Scalar.num 1024)]),
     ("aggressive",
      [("nameservers", Scalar.strList ["9.9.9.9", "149.112.112.112"]),
       ("dns_cache_size", Scalar.num 2048), ("dns_cache_ttl", Scalar.num 3600)]),
     ("extreme",
      [("nameservers", Scalar.strList ["1.1.1.1", "8.8.8.8"]),
       ("dns_cache_size", Scalar.num 4096), ("dns_cache_ttl", Scalar.num 7200),
       ("prefetch", Scalar.bool true)])]),
   ("qos",
    [("light", [("enabled", Scalar.bool false)]),
     ("standard", [("enabled", Scalar.bool true), ("prioritize_ack", Scalar.bool true)]),
     ("aggressive",
      [("enabled", Scalar.bool true), ("prioritize_ack", Scalar.bool true),
       ("prioritize_dns", Scalar.bool true), ("priority_ports", Scalar.numList [80, 443]),
       ("traffic_shaping", Scalar.bool true)]),
     ("extreme",
      [("enabled", Scalar.bool true), ("prioritize_ack", Scalar.bool true),
       ("prioritize_dns", Scalar.bool true),
       ("priority_ports", Scalar.numList [80, 443, 53, 123]),
       ("traffic_shaping", Scalar.bool true), ("buffer_bloat_mitigation", Scalar.bool true)])]),
   ("buffer",
    [("light", [("txqueuelen", Scalar.num 1000)]),
     ("standard", [("txqueuelen", Scalar.num 2000), ("netdev_max_backlog", Scalar.num 2000)]),
     ("aggressive",
      [("txqueuelen", Scalar.num 5000), ("netdev_max_backlog", Scalar.num 5000),
       ("socket_buffer_size", Scalar.num 12582912)]),
     ("extreme",
      [("txqueuelen", Scalar.num 10000), ("netdev_max_backlog", Scalar.num 10000),
       ("socket_buffer_size", Scalar.num 25165824), ("tcp_moderate_rcvbuf", Scalar.num 0)])]),
   ("connection_specific",
    [("wifi_2ghz",
      [("channel_selection", Scalar.str "auto"), ("band_steering", Scalar.bool false)]),
     ("wifi_5ghz",
      [("channel_selection", Scalar.str "auto"), ("band_steering", Scalar.bool true),
       ("beamforming", Scalar.bool true)]),
     ("ethernet",
      [("jumbo_frames", Scalar.bool false), ("flow_control", Scalar.bool true)]),
     ("mobile",
      [("data_saver", Scalar.bool false), ("tcp_delayed_ack", Scalar.bool false)])])]

/-- Value of one parameter in a resolved profile. -/
def resolvedParam (rs : List ResolvedEntry) (g p : String) : Option Scalar :=
  match lookupRes rs g with
  | some (TopVal.dict d, _) => lookupA d p
  | _ => none

/-! ## Helper lemmas -/

theorem min100_bounds {v : ℚ} (hv : 0 ≤ v) : 0 ≤ min 100 v ∧ min 100 v ≤ 100 :=
  ⟨le_min (by norm_num) hv, min_le_left _ _⟩

theorem list_mean_bounds (l : List ℚ) (h : ∀ x ∈ l, 0 ≤ x ∧ x ≤ 100) (hne : l ≠ []) :
    0 ≤ l.sum / l.length ∧ l.sum / l.length ≤ 100 := by
  have hlen : 0 < (l.length : ℚ) := by
    have hp : 0 < l.length := List.length_pos.mpr hne
    exact_mod_cast hp
  constructor
  · exact div_nonneg (List.sum_nonneg fun x hx => (h x hx).1) hlen.le
  · rw [div_le_iff hlen]
    have hs : l.sum ≤ l.length • (100 : ℚ) :=
      List.sum_le_card_nsmul l 100 fun x hx => (h x hx).2
    rw [nsmul_eq_mul] at hs
    linarith

theorem congestion_factors_mem (os : OSType) (ci : CongestionInputs)
    (hlat : ∀ l, ci.latency = some l → l.lmin ≤ l.lmax) :
    ∀ f ∈ congestion_factors os ci, 0 ≤ f ∧ f ≤ 100 := by
  intro f hf
  unfold congestion_factors at hf
  rcases List.mem_append.mp hf with hf' | hload
  · rcases List.mem_append.mp hf' with hlatf | hstat
    · unfold latency_factors at hlatf
      rcases hci : ci.latency with _ | l
      · rw [hci] at hlatf; simp at hlatf
      · rw [hci] at hlatf
        simp only [List.mem_cons, List.not_mem_nil, or_false] at hlatf
        rcases hlatf with rfl | rfl
        · exact min100_bounds (sub_nonneg.mpr (hlat l hci))
        · exact min100_bounds (le_max_left _ _)
    · unfold interface_stat_factors at hstat
      rcases os with _ | _ | _ | _
      · rcases hw : ci.winStats with _ | ⟨r, d⟩ <;> rw [hw] at hstat
        · simp at hstat
        · simp only at hstat
          split at hstat
          · simp only [List.mem_cons, List.not_mem_nil, or_false] at hstat
            subst hstat
            exact min100_bounds (by positivity)
          · simp at hstat
      · rcases hw : ci.linStats with _ | ⟨p, e, d⟩ <;> rw [hw] at hstat
        · simp at hstat
        · simp only at hstat
          split at hstat
          · simp only [List.mem_cons, List.not_mem_nil, or_false] at hstat
            rcases hstat with rfl | rfl <;> exact min100_bounds (by positivity)
          · simp at hstat
      · rcases hw : ci.macStats with _ | ⟨p, e⟩ <;> rw [hw] at hstat
        · simp at hstat
        · simp only at hstat
          split at hstat
          · simp only [List.mem_cons, List.not_mem_nil, or_false] at hstat
            subst hstat
            exact min100_bounds (by positivity)
          · simp at hstat
      · simp at hstat
  · unfold load_factors at hload
    rcases hl : ci.loadAvg with _ | load <;> rw [hl] at hload
    · rcases os <;> rcases hc : ci.cpuPercent with _ | cpu <;> rw [hc] at hload <;>
        simp at hload <;> (rcases hload with ⟨-, rfl⟩; norm_num)
    · simp only [List.mem_cons, List.not_mem_nil, or_false] at hload
      subst hload
      have hb := min100_bounds (le_max_left (0 : ℚ) ((load - 1) / 4 * 100))
      constructor
      · have := hb.1; linarith
      · have := hb.2; linarith

theorem interference_factors_mem (os : OSType) (ii : InterferenceInputs) :
    ∀ f ∈ interference_factors os ii, 0 ≤ f ∧ f ≤ 100 := by
  intro f hf
  unfold interference_factors at hf
  rcases List.mem_append.mp hf with hf' | hband
  · rcases List.mem_append.mp hf' with hcc | hvar
    · rcases hc : ii.coChannelCount with _ | n <;> rw [hc] at hcc
      · simp at hcc
      · simp only at hcc
        split at hcc
        · simp only [List.mem_cons, List.not_mem_nil, or_false] at hcc
          subst hcc
          exact min100_bounds (by positivity)
        · simp at hcc
    · rcases hsig : ii.signalSamples with _ | ⟨s, rest⟩ <;> rw [hsig] at hvar
      · simp at hvar
      · simp only at hvar
        split at hvar
        · rename_i hpos
          simp only [List.mem_cons, List.not_mem_nil, or_false] at hvar
          subst hvar
          refine min100_bounds ?_
          have : (0 : ℚ) ≤ ((sampleMax s rest - sampleMin s rest : ℤ) : ℚ) := by
            exact_mod_cast hpos.le
          linarith
        · simp at hvar
  · rcases os <;> rcases hw : ii.winChannel with _ | ch <;> rw [hw] at hband <;>
      simp at hband <;> (rcases hband with ⟨-, rfl⟩; norm_num)

/-! ## Claim theorems -/

/-- C1: for every diagnostic pass (any OS, any sub-measurement outcomes, with
min ≤ max for a parsed latency triple), `_analyze_network_congestion` and
`_check_for_interference` return a value in [0, 100]; the composite is the
arithmetic mean of exactly the successfully measured factors (each factor
individually capped at 100 and nonnegative, and the divisor is the positive
length of that factor list, so no division by zero occurs); with zero
measured factors the results are exactly the documented defaults 30.0 and
20.0. -/
theorem diagnostic_scores_sound (os : OSType) (ci : CongestionInputs) (ii : InterferenceInputs)
    (hlat : ∀ l, ci.latency = some l → l.lmin ≤ l.lmax) :
    (0 ≤ analyze_network_congestion os ci ∧ analyze_network_congestion os ci ≤ 100) ∧
    (congestion_factors os ci = [] → analyze_network_congestion os ci = 30) ∧
    (congestion_factors os ci ≠ [] →
      0 < (congestion_factors os ci).length ∧
      analyze_network_congestion os ci =
        (congestion_factors os ci).sum / (congestion_factors os ci).length) ∧
    (∀ f ∈ congestion_factors os ci, 0 ≤ f ∧ f ≤ 100) ∧
    (0 ≤ check_for_interference os ii ∧ check_for_interference os ii ≤ 100) ∧
    (interference_factors os ii = [] → check_for_interference os ii = 20) ∧
    (interference_factors os ii ≠ [] →
      0 < (interference_factors os ii).length ∧
      check_for_interference os ii =
        (interference_factors os ii).sum / (interference_factors os ii).length) ∧
    (∀ f ∈ interference_factors os ii, 0 ≤ f ∧ f ≤ 100) := by
  have hcf := congestion_factors_mem os ci hlat
  have hif := interference_factors_mem os ii
  have hcong : (0 ≤ analyze_network_congestion os ci ∧ analyze_network_congestion os ci ≤ 100) := by
    unfold analyze_network_congestion
    by_cases h : congestion_factors os ci = []
    · norm_num [h]
    · simp only [List.isEmpty_iff, h, if_false]
      exact list_mean_bounds _ hcf h
  have hint : (0 ≤ check_for_interference os ii ∧ check_for_interference os ii ≤ 100) := by
    unfold check_for_interference
    by_cases h : interference_factors os ii = []
    · norm_num [h]
    · simp only [List.isEmpty_iff, h, if_false]
      exact list_mean_bounds _ hif h
  refine ⟨hcong, ?_, ?_, hcf, hint, ?_, ?_, hif⟩
  · intro h; unfold analyze_network_congestion; simp [h]
  · intro h
    refine ⟨List.length_pos.mpr h, ?_⟩
    unfold analyze_network_congestion
    simp [List.isEmpty_iff, h]
  · intro h; unfold check_for_interference; simp [h]
  · intro h
    refine ⟨List.length_pos.mpr h, ?_⟩
    unfold check_for_interference
    simp [List.isEmpty_iff, h]

/-- Witness for C1 at concrete inputs: a Linux pass with parsed latency
(10, 30, 60), interface stats (100 packets, 1 error, 2 drops) and load 3
stays within [0, 100], and an all-failed interference pass returns 20. -/
theorem diagnostic_scores_sound_witness :
    (0 ≤ analyze_network_congestion .linux
        ⟨some ⟨10, 30, 60⟩, none, some (100, 1, 2), none, some 3, none⟩ ∧
      analyze_network_congestion .linux
        ⟨some ⟨10, 30, 60⟩, none, some (100, 1, 2), none, some 3, none⟩ ≤ 100) ∧
    check_for_interference .linux ⟨none, [], none⟩ = 20 := by
  have h := diagnostic_scores_sound .linux
    ⟨some ⟨10, 30, 60⟩, none, some (100, 1, 2), none, some 3, none⟩ ⟨none, [], none⟩
    (by rintro l hl; cases hl; norm_num)
  exact ⟨h.1, h.2.2.2.2.2.1 rfl⟩

/-- C10: while the booster is running, `get_current_metrics` seeds a zero
`optimization_level_value` to 25 and then sets it to `min(98, value + r)`, so
across any sequence of calls with draws in [0, 0.8] the value is
non-decreasing and never exceeds 98. -/
theorem metrics_value_monotone :
    (∀ v r : ℚ, 0 ≤ r → r ≤ 4 / 5 → v ≤ 98 →
      v ≤ get_current_metrics_value true v r ∧ get_current_metrics_value true v r ≤ 98) ∧
    (∀ r : ℚ, get_current_metrics_value true 0 r = min 98 (25 + r)) ∧
    (∀ v : ℚ, ∀ rs : List ℚ, (∀ r ∈ rs, 0 ≤ r ∧ r ≤ 4 / 5) → v ≤ 98 →
      v ≤ metricsValueAfter v rs ∧ metricsValueAfter v rs ≤ 98) := by
  have step : ∀ v r : ℚ, 0 ≤ r → v ≤ 98 →
      v ≤ get_current_metrics_value true v r ∧ get_current_metrics_value true v r ≤ 98 := by
    intro v r hr hv
    by_cases hv0 : v = 0
    · subst hv0
      have hval : get_current_metrics_value true 0 r = min 98 (25 + r) := by
        simp [get_current_metrics_value]
      rw [hval]
      exact ⟨le_min (by norm_num) (by linarith), min_le_left _ _⟩
    · have hval : get_current_metrics_value true v r = min 98 (v + r) := by
        simp [get_current_metrics_value, hv0]
      rw [hval]
      exact ⟨le_min hv (by linarith), min_le_left _ _⟩
  refine ⟨fun v r hr _ hv => step v r hr hv, ?_, ?_⟩
  · intro r
    unfold get_current_metrics_value
    simp
  · intro v rs
    induction rs generalizing v with
    | nil => intro _ hv; exact ⟨le_refl _, hv⟩
    | cons r rest ih =>
      intro hall hv
      have h1 := step v r (hall r (List.mem_cons_self r rest)).1 hv
      have h2 := ih (get_current_metrics_value true v r)
        (fun x hx => hall x (List.mem_cons_of_mem r hx)) h1.2
      exact ⟨le_trans h1.1 h2.1, by simpa [metricsValueAfter] using h2.2⟩

/-- Witness for C10: starting from value 50 with draws 1/2 then 4/5, the
value never decreases and stays at most 98. -/
theorem metrics_value_monotone_witness :
    (50 : ℚ) ≤ metricsValueAfter 50 [1 / 2, 4 / 5] ∧
      metricsValueAfter 50 [1 / 2, 4 / 5] ≤ 98 :=
  metrics_value_monotone.2.2 50 [1 / 2, 4 / 5]
    (by norm_num [List.forall_mem_cons]) (by norm_num)

/-- Invariant of the MTU binary search: the bounds stay within [1200, 1500],
`optimal_mtu` stays within [1200, 1500], after any successful probe
`optimal_mtu` coincides with `min_mtu`, and before the first successful probe
both keep their initial values 1500 and 1200. -/
def MtuInv (s : MtuState) : Prop :=
  1200 ≤ s.minM ∧ s.minM ≤ s.maxM ∧ s.maxM ≤ 1500 ∧ 1200 ≤ s.opt ∧ s.opt ≤ 1500 ∧
  (s.succ = true → s.opt = s.minM) ∧ (s.succ = false → s.opt = 1500 ∧ s.minM = 1200)

theorem mtuLoop_inv (f : ℕ → Bool) :
    ∀ fuel s, MtuInv s → MtuInv (mtuLoop f fuel s) := by
  intro fuel
  induction fuel with
  | zero => intro s h; simpa [mtuLoop] using h
  | succ n ih =>
    intro s h
    obtain ⟨h1, h2, h3, h4, h5, h6, h7⟩ := h
    rw [mtuLoop]
    split
    · rename_i hgap
      dsimp only
      split
      · apply ih
        unfold MtuInv
        dsimp only
        exact ⟨h1, by omega, by omega, h4, h5, h6, h7⟩
      · apply ih
        unfold MtuInv
        dsimp only
        exact ⟨by omega, by omega, h3, by omega, by omega, fun _ => rfl,
          fun hs => by simp at hs⟩
    · exact ⟨h1, h2, h3, h4, h5, h6, h7⟩

theorem mtuLoop_gap_le (f : ℕ → Bool) :
    ∀ fuel s, s.maxM - s.minM ≤ fuel + 8 →
      (mtuLoop f fuel s).maxM - (mtuLoop f fuel s).minM ≤ 8 := by
  intro fuel
  induction fuel with
  | zero => intro s h; simpa [mtuLoop] using h
  | succ n ih =>
    intro s h
    rw [mtuLoop]
    split
    · rename_i hgap
      dsimp only
      split
      · apply ih; dsimp only; omega
      · apply ih; dsimp only; omega
    · rename_i hgap; simpa using Nat.le_of_not_lt hgap

/-- C2 (amended): the MTU search keeps `low`/`high` within [1200, 1500] and
terminates with `high - low ≤ 8`; the returned `optimal_mtu` lies in
[1200, 1500] and equals the final `low` whenever at least one probe succeeded,
but when every probe fails it stays at the initial default 1500 while `low`
stays 1200; probe payloads carry the fixed 28-byte IP+ICMP overhead, and on
the synthetic network delivering only packets of total size at most 1400 the
search returns 1396 ≤ 1400 after 6 ≤ ⌈log2(300/8)⌉+1 = 7 probes. -/
theorem find_optimal_mtu_amended (pingFails : ℕ → Bool) :
    (1200 ≤ find_windows_optimal_mtu pingFails ∧ find_windows_optimal_mtu pingFails ≤ 1500) ∧
    1200 ≤ (mtuLoop pingFails 300 mtuInit).minM ∧
    (mtuLoop pingFails 300 mtuInit).minM ≤ (mtuLoop pingFails 300 mtuInit).maxM ∧
    (mtuLoop pingFails 300 mtuInit).maxM ≤ 1500 ∧
    (mtuLoop pingFails 300 mtuInit).maxM - (mtuLoop pingFails 300 mtuInit).minM ≤ 8 ∧
    ((mtuLoop pingFails 300 mtuInit).succ = true →
      find_windows_optimal_mtu pingFails = (mtuLoop pingFails 300 mtuInit).minM) ∧
    ((mtuLoop pingFails 300 mtuInit).succ = false →
      find_windows_optimal_mtu pingFails = 1500 ∧ (mtuLoop pingFails 300 mtuInit).minM = 1200) ∧
    find_windows_optimal_mtu failsAbove1400 = 1396 ∧
    find_windows_optimal_mtu failsAbove1400 ≤ 1400 ∧
    (mtuLoop failsAbove1400 300 mtuInit).probes = 6 ∧
    (mtuLoop failsAbove1400 300 mtuInit).probes ≤ 7 := by
  have hinv := mtuLoop_inv pingFails 300 mtuInit
    (by refine ⟨by norm_num [mtuInit], by norm_num [mtuInit], by norm_num [mtuInit],
          by norm_num [mtuInit], by norm_num [mtuInit], ?_, ?_⟩
        · intro h; simp [mtuInit] at h
        · intro _; exact ⟨rfl, rfl⟩)
  have hgap := mtuLoop_gap_le pingFails 300 mtuInit (by norm_num [mtuInit])
  obtain ⟨g1, g2, g3, g4, g5, g6, g7⟩ := hinv
  refine ⟨⟨g4, g5⟩, g1, g2, g3, hgap, ?_, ?_, by decide, by decide, by decide, by decide⟩
  · intro hs; exact g6 hs
  · intro hs; exact ⟨(g7 hs).1, (g7 hs).2⟩

/-- Witness for C2 (amended): on a network where every probe succeeds the
search returns the final `low`. -/
theorem find_optimal_mtu_amended_witness :
    find_windows_optimal_mtu (fun _ => false) = (mtuLoop (fun _ => false) 300 mtuInit).minM :=
  (find_optimal_mtu_amended (fun _ => false)).2.2.2.2.2.1 (by decide)

/-- C2 counterexample: the claim that the search "returns low" fails on the
code: on a network where every don't-fragment probe fails, the search
terminates with `low = 1200` but returns the initial `optimal_mtu = 1500`. -/
theorem find_optimal_mtu_counterexample :
    find_windows_optimal_mtu (fun _ => true) = 1500 ∧
    (mtuLoop (fun _ => true) 300 mtuInit).minM = 1200 ∧
    (1500 : ℕ) ≠ 1200 := by decide

/-- C4: with no caller-supplied overrides, the feature flags derived by
`_set_feature_flags` are monotone in the optimization level (every flag
enabled at a lower level is enabled at every higher level), and a
caller-supplied setting for a flag always takes precedence over the
level-derived default. -/
theorem feature_flags_monotone_and_overridable :
    (∀ l1 l2 : OptimizationLevel, levelRank l1 < levelRank l2 →
      flagsLe (set_feature_flags l1 noOverrides) (set_feature_flags l2 noOverrides)) ∧
    (∀ (lvl : OptimizationLevel) (ov : FlagOverrides) (b : Bool),
      ov.dns_prefetching = some b → (set_feature_flags lvl ov).dns_prefetching = b) ∧
    (∀ (lvl : OptimizationLevel) (ov : FlagOverrides) (b : Bool),
      ov.channel_switching = some b → (set_feature_flags lvl ov).channel_switching = b) ∧
    (∀ (lvl : OptimizationLevel) (ov : FlagOverrides) (b : Bool),
      ov.deep_packet_inspection = some b →
        (set_feature_flags lvl ov).enable_deep_packet_inspection = b) ∧
    (∀ (lvl : OptimizationLevel) (ov : FlagOverrides) (b : Bool),
      ov.bandwidth_control = some b → (set_feature_flags lvl ov).enable_bandwidth_control = b) ∧
    (∀ (lvl : OptimizationLevel) (ov : FlagOverrides) (b : Bool),
      ov.packet_prioritization = some b →
        (set_feature_flags lvl ov).packet_prioritization = b) := by
  refine ⟨by decide, ?_, ?_, ?_, ?_, ?_⟩ <;>
    (intro lvl ov b h; simp [set_feature_flags, h])

/-- Witness for C4: light enables a subset of extreme's flags, and an explicit
`deep_packet_inspection = True` override wins over light's `False` default. -/
theorem feature_flags_monotone_and_overridable_witness :
    flagsLe (set_feature_flags .light noOverrides) (set_feature_flags .extreme noOverrides) ∧
    (set_feature_flags .light
        ⟨none, none, some true, none, none⟩).enable_deep_packet_inspection = true :=
  ⟨feature_flags_monotone_and_overridable.1 .light .extreme (by decide),
   feature_flags_monotone_and_overridable.2.2.2.1 .light ⟨none, none, some true, none, none⟩
     true rfl⟩

/-- C5: the apply sequence reports `success = true` iff at least one attempted
step succeeded; every attempted step lands in `applied` or in `failed`
according to its outcome (a failure never aborts the remaining steps), and in
the scenario where the DNS step fails while the Windows TCP and wireless steps
succeed the report is `success = true`, `failed = ["dns_servers"]`. -/
theorem apply_reports_sound (os : OSType) (cfg : ApplyConfigShape) (out : ApplyOutcomes) :
    ((apply_optimizations os cfg out).success = true ↔
      ∃ s ∈ applySteps os cfg out, s.2.1 = true ∧ s.2.2 = true) ∧
    (∀ n, n ∈ (apply_optimizations os cfg out).applied ↔
      ∃ s ∈ applySteps os cfg out, s.1 = n ∧ s.2.1 = true ∧ s.2.2 = true) ∧
    (∀ n, n ∈ (apply_optimizations os cfg out).failed ↔
      ∃ s ∈ applySteps os cfg out, s.1 = n ∧ s.2.1 = true ∧ s.2.2 = false) ∧
    apply_optimizations .windows ⟨true, true, true⟩ ⟨true, true, false⟩ =
      ⟨["windows_tcp", "windows_wifi"], ["dns_servers"], true⟩ := by
  have happlied : ∀ n, n ∈ (apply_optimizations os cfg out).applied ↔
      ∃ s ∈ applySteps os cfg out, s.1 = n ∧ s.2.1 = true ∧ s.2.2 = true := by
    intro n
    simp only [apply_optimizations, List.mem_map, List.mem_filter]
    constructor
    · rintro ⟨s, ⟨⟨hs, hp⟩, hq⟩, rfl⟩
      exact ⟨s, hs, rfl, hp, hq⟩
    · rintro ⟨s, hs, rfl, hp, hq⟩
      exact ⟨s, ⟨⟨hs, hp⟩, hq⟩, rfl⟩
  have hfailed : ∀ n, n ∈ (apply_optimizations os cfg out).failed ↔
      ∃ s ∈ applySteps os cfg out, s.1 = n ∧ s.2.1 = true ∧ s.2.2 = false := by
    intro n
    simp only [apply_optimizations, List.mem_map, List.mem_filter, Bool.not_eq_true']
    constructor
    · rintro ⟨s, ⟨⟨hs, hp⟩, hq⟩, rfl⟩
      exact ⟨s, hs, rfl, hp, hq⟩
    · rintro ⟨s, hs, rfl, hp, hq⟩
      exact ⟨s, ⟨⟨hs, hp⟩, hq⟩, rfl⟩
  refine ⟨?_, happlied, hfailed, by decide⟩
  constructor
  · intro h
    have hne : (apply_optimizations os cfg out).applied ≠ [] := by
      intro hnil
      rw [show (apply_optimizations os cfg out).success =
          !(apply_optimizations os cfg out).applied.isEmpty from rfl, hnil] at h
      simp at h
    obtain ⟨n, hn⟩ := List.exists_mem_of_ne_nil _ hne
    obtain ⟨s, hs, _, hp, hq⟩ := (happlied n).mp hn
    exact ⟨s, hs, hp, hq⟩
  · rintro ⟨s, hs, hp, hq⟩
    have hn : s.1 ∈ (apply_optimizations os cfg out).applied :=
      (happlied s.1).mpr ⟨s, hs, rfl, hp, hq⟩
    rw [show (apply_optimizations os cfg out).success =
        !(apply_optimizations os cfg out).applied.isEmpty from rfl]
    simp [List.isEmpty_iff, List.ne_nil_of_mem hn]

/-- Witness for C5: in the DNS-fails scenario the success flag is true because
the Windows TCP step succeeded. -/
theorem apply_reports_sound_witness :
    (apply_optimizations .windows ⟨true, true, true⟩ ⟨true, true, false⟩).success = true :=
  (apply_reports_sound .windows ⟨true, true, true⟩ ⟨true, true, false⟩).1.mpr
    ⟨("windows_tcp", true, true), by decide, rfl, rfl⟩

/-- C6 counterexample: `stop_boosting` does NOT join the monitor thread before
restoring — on a running session with a live monitor thread the restore action
occurs strictly before the join attempt in the emitted sequence, refuting the
claim that the baseline is replayed only after the join attempt completes. -/
theorem stop_boosting_order_counterexample :
    stop_boosting true true true =
      [StopEvent.set_active_false, StopEvent.set_running_false, StopEvent.visualizer_stop,
       StopEvent.restore_settings, StopEvent.join_monitor 2] ∧
    (stop_boosting true true true).indexOf StopEvent.restore_settings <
      (stop_boosting true true true).indexOf (StopEvent.join_monitor 2) ∧
    StopEvent.restore_settings ∈ stop_boosting true true true ∧
    StopEvent.join_monitor 2 ∈ stop_boosting true true true := by decide

/-- C6 (amended): `stop_boosting` is a no-op when not running; otherwise it
first clears the cooperative cancellation flag (`self.active = False`,
observed at the top of each monitor-loop iteration), then restores the
original settings, and only afterwards joins the monitor thread with the
bounded 2.0 s timeout (the join is attempted exactly when a monitor thread is
alive); restoration therefore cannot be prevented by a join timeout, since it
happens before the join. -/
theorem stop_boosting_amended :
    (∀ t : Bool, stop_boosting false false t = []) ∧
    (∀ a r t : Bool, (a || r) = true →
      (stop_boosting a r t).head? = some StopEvent.set_active_false ∧
      StopEvent.restore_settings ∈ stop_boosting a r t ∧
      (t = true →
        (stop_boosting a r t).indexOf StopEvent.restore_settings <
          (stop_boosting a r t).indexOf (StopEvent.join_monitor 2)) ∧
      (StopEvent.join_monitor 2 ∈ stop_boosting a r t ↔ t = true)) := by decide

/-- Witness for C6 (amended): concrete running session with live thread. -/
theorem stop_boosting_amended_witness :
    (stop_boosting true false true).head? = some StopEvent.set_active_false ∧
    StopEvent.restore_settings ∈ stop_boosting true false true :=
  ⟨(stop_boosting_amended.2 true false true (by decide)).1,
   (stop_boosting_amended.2 true false true (by decide)).2.1⟩

/-- C7 counterexample: the captured Windows baseline contains the TTL (and the
max SYN retransmissions and window size), but the restore path never passes
TTL to any restore call — refuting "every parameter present in the captured
BaselineSettings is passed to a restore call exactly once". -/
theorem restore_exactly_once_counterexample :
    "ttl" ∈ capturedParams
      ⟨some ⟨some "normal", some "default", some 65535, some 2, some 128⟩,
       some ⟨true, true⟩, some ⟨true, []⟩⟩ ∧
    "ttl" ∉ passedParams (restore_original_settings true
      ⟨some ⟨some "normal", some "default", some 65535, some 2, some 128⟩,
       some ⟨true, true⟩, some ⟨true, []⟩⟩) := by decide

/-- C7 (amended): for every captured Windows baseline, the restore path passes
only the autotuning level (emitted exactly when a window size was captured,
with default "normal"), the congestion provider, and the power-saving flag
(when an interface is active and power saving had been enabled), each at most
once; the captured window size, max SYN retransmissions, TTL and selective
suspend are never passed to any restore call, QoS restoration merely deletes
the two added firewall rules, and `stop_boosting` never discards the baseline. -/
theorem restore_amended (hasIface : Bool) (b : WinBaseline) :
    (∀ p ∈ passedParams (restore_original_settings hasIface b),
      p = "autotuning" ∨ p = "congestion_provider" ∨ p = "power_saving_enabled") ∧
    ("autotuning" ∈ passedParams (restore_original_settings hasIface b) ↔
      ∃ t, b.tcp_params = some t ∧ t.window_size.isSome = true) ∧
    ("congestion_provider" ∈ passedParams (restore_original_settings hasIface b) ↔
      ∃ t, b.tcp_params = some t ∧ t.congestion_provider.isSome = true) ∧
    ("power_saving_enabled" ∈ passedParams (restore_original_settings hasIface b) ↔
      ∃ ps, b.power_settings = some ps ∧ hasIface = true ∧ ps.power_saving_enabled = true) ∧
    (passedParams (restore_original_settings hasIface b)).Nodup ∧
    "ttl" ∉ passedParams (restore_original_settings hasIface b) ∧
    "max_syn_retransmissions" ∉ passedParams (restore_original_settings hasIface b) ∧
    "window_size" ∉ passedParams (restore_original_settings hasIface b) ∧
    "selective_suspend" ∉ passedParams (restore_original_settings hasIface b) ∧
    (∀ rule, RestoreCall.delete_qos_rule rule ∈ restore_original_settings hasIface b →
      rule = "SignalBoosterRealTime" ∨ rule = "SignalBoosterWeb") ∧
    (∀ a r t : Bool, StopEvent.discard_baseline ∉ stop_boosting a r t) := by
  obtain ⟨tp, ps, qs⟩ := b
  have hstop : ∀ a r t : Bool, StopEvent.discard_baseline ∉ stop_boosting a r t := by decide
  rcases tp with _ | ⟨at_, cp, ws, ms, tt⟩ <;>
  rcases qs with _ | ⟨sched, rules⟩ <;>
  rcases ps with _ | ⟨pse, ss⟩ <;>
  cases hasIface <;>
  (try rcases ws with _ | wsv) <;>
  (try rcases cp with _ | cpv) <;>
  (try cases pse) <;>
  refine ⟨?_, ?_, ?_, ?_, ?_, ?_, ?_, ?_, ?_, ?_, hstop⟩ <;>
  simp [restore_original_settings, passedParams] <;>
  try decide

/-- Witness for C7 (amended): on the fully captured baseline the autotuning
level is re-applied (window size was captured) and TTL is never passed. -/
theorem restore_amended_witness :
    "autotuning" ∈ passedParams (restore_original_settings true
      ⟨some ⟨some "normal", some "default", some 65535, some 2, some 128⟩,
       some ⟨true, true⟩, some ⟨true, []⟩⟩) ∧
    "ttl" ∉ passedParams (restore_original_settings true
      ⟨some ⟨some "normal", some "default", some 65535, some 2, some 128⟩,
       some ⟨true, true⟩, some ⟨true, []⟩⟩) :=
  ⟨(restore_amended true
      ⟨some ⟨some "normal", some "default", some 65535, some 2, some 128⟩,
       some ⟨true, true⟩, some ⟨true, []⟩⟩).2.1.mpr
    ⟨⟨some "normal", some "default", some 65535, some 2, some 128⟩, rfl, rfl⟩,
   (restore_amended true
      ⟨some ⟨some "normal", some "default", some 65535, some 2, some 128⟩,
       some ⟨true, true⟩, some ⟨true, []⟩⟩).2.2.2.2.2.1⟩

/-- C9 counterexample: the monitor loop's re-apply decision ignores the
measured download speed — with `target_speed = 20` and a measured speed of
5 Mbps but a signal of 90% (above the 85% target), neither of the first two
iterations re-runs the apply sequence, refuting the claim that a speed below
target triggers a re-apply within the iteration. -/
theorem monitor_reapply_counterexample :
    (5 : ℚ) < 20 ∧
    MonitorAction.apply_optimizations ∉ monitor_iteration 85 5 90 ∧
    MonitorAction.apply_optimizations ∉
      (monitor_iteration 85 5 90 ++ monitor_iteration 85 5 90) := by decide

/-- C9 (amended): an iteration of the monitor loop re-runs
`_apply_optimizations` exactly when the measured signal is below the target
signal strength (85); the measured download speed and the session's
`target_speed` play no role.  In particular, with `target_speed = 20`, a
measured speed of 5 Mbps and a signal of 40%, a re-apply occurs within the
first iteration. -/
theorem monitor_reapply_amended :
    (∀ (ts : ℤ) (sp : ℚ) (sg : ℤ),
      MonitorAction.apply_optimizations ∈ monitor_iteration ts sp sg ↔ sg < ts) ∧
    (∀ (ts : ℤ) (sp sp' : ℚ) (sg : ℤ),
      monitor_iteration ts sp sg = monitor_iteration ts sp' sg) ∧
    MonitorAction.apply_optimizations ∈ monitor_iteration 85 5 40 ∧
    (5 : ℚ) < 20 := by
  refine ⟨?_, ?_, by decide, by norm_num⟩
  · intro ts sp sg
    unfold monitor_iteration
    by_cases h : sg < ts <;> simp [h]
  · intro ts sp sp' sg
    unfold monitor_iteration
    rfl

/-- Witness for C9 (amended): the iff instantiated at the concrete
low-signal measurement. -/
theorem monitor_reapply_amended_witness :
    MonitorAction.apply_optimizations ∈ monitor_iteration 85 5 40 :=
  (monitor_reapply_amended.1 85 5 40).mpr (by decide)

/-- C8 counterexample: resolving the light profile with the nested override
`{"tcp": {"tcp_window_size": 1}}` mutates the static default tables through
the aliased group dict, so a subsequent resolution of the same level and
connection type with no overrides returns 1 instead of the original static
value 65535. -/
theorem config_resolution_counterexample :
    resolvedParam (get_config_for_level
        (get_config_for_level defaultConfigs "light" "wifi_2ghz"
          [("tcp", TopVal.dict [("tcp_window_size", Scalar.num 1)])]).2
        "light" "wifi_2ghz" []).1 "tcp" "tcp_window_size" = some (Scalar.num 1) ∧
    resolvedParam (get_config_for_level defaultConfigs "light" "wifi_2ghz" []).1
        "tcp" "tcp_window_size" = some (Scalar.num 65535) ∧
    Scalar.num 1 ≠ Scalar.num 65535 := by
  refine ⟨by decide, by decide, by decide⟩

/-- C8 (amended): a resolution with no custom overrides leaves the static
tables unchanged, but the recursive key-by-key merge writes through the
aliased group dicts: after resolving the light profile with the nested
override `{"tcp": {"tcp_window_size": 1}}`, the static light TCP table itself
holds 1, and a subsequent override-free resolution of the same level and
connection type returns the overridden value, not the original static one. -/
theorem config_resolution_amended :
    (∀ (st : ConfigStore) (level conn : String),
      (get_config_for_level st level conn []).2 = st) ∧
    ((lookupA ((get_config_for_level defaultConfigs "light" "wifi_2ghz"
          [("tcp", TopVal.dict [("tcp_window_size", Scalar.num 1)])]).2) "tcp").bind
        (fun lvls => (lookupA lvls "light").bind (fun d => lookupA d "tcp_window_size")) =
      some (Scalar.num 1)) ∧
    resolvedParam (get_config_for_level
        (get_config_for_level defaultConfigs "light" "wifi_2ghz"
          [("tcp", TopVal.dict [("tcp_window_size", Scalar.num 1)])]).2
        "light" "wifi_2ghz" []).1 "tcp" "tcp_window_size" = some (Scalar.num 1) :=
  ⟨fun _ _ _ => rfl, by decide, by decide⟩

theorem exists_argmin (f : ℕ → ℚ) :
    ∀ (l : List ℕ), l ≠ [] → ∃ k ∈ l, ∀ j ∈ l, f k ≤ f j := by
  intro l
  induction l with
  | nil => intro h; cases h rfl
  | cons a t ih =>
    intro _
    cases t with
    | nil => exact ⟨a, by simp, by simp⟩
    | cons b u =>
      obtain ⟨k, hk, hmin⟩ := ih (by simp)
      by_cases hc : f a ≤ f k
      · refine ⟨a, by simp, ?_⟩
        intro j hj
        rcases List.mem_cons.mp hj with rfl | hj'
        · exact le_refl _
        · exact le_trans hc (hmin j hj')
      · refine ⟨k, List.mem_cons_of_mem a hk, ?_⟩
        intro j hj
        rcases List.mem_cons.mp hj with rfl | hj'
        · exact le_of_lt (lt_of_not_le hc)
        · exact hmin j hj'

theorem macBest_ne_nil (nets : List ℕ) : macBest nets ≠ [] := by
  obtain ⟨k, hk, hmin⟩ := exists_argmin (macUsage nets) macosChannels (by decide)
  have hm : macMinimal nets k = true := decide_eq_true hmin
  exact List.ne_nil_of_mem (List.mem_filter.mpr ⟨hk, hm⟩)

/-- The preferred-channel filter of `find_macos_best_channel` keeps, of the
minimal-usage channels, exactly the minimal ones among 1, 6, 11, in order. -/
theorem macPreferred_eq (nets : List ℕ) :
    (macBest nets).filter (fun k => k = 1 ∨ k = 6 ∨ k = 11) =
      [1, 6, 11].filter (macMinimal nets) := by
  unfold macBest macosChannels
  rw [List.filter_filter]
  simp [List.filter_cons]

theorem find_macos_minimal (nets : List ℕ) :
    find_macos_best_channel (some nets) ∈ macosChannels ∧
    (∀ j ∈ macosChannels,
      macUsage nets (find_macos_best_channel (some nets)) ≤ macUsage nets j) := by
  unfold find_macos_best_channel
  dsimp only
  rw [macPreferred_eq]
  rcases hf : [1, 6, 11].filter (macMinimal nets) with _ | ⟨p, t⟩
  · dsimp only
    obtain ⟨a, u, hbest⟩ : ∃ a u, macBest nets = a :: u := by
      rcases hb : macBest nets with _ | ⟨a, u⟩
      · exact absurd hb (macBest_ne_nil nets)
      · exact ⟨a, u, rfl⟩
    rw [hbest]
    have ha := List.mem_filter.mp (hbest ▸ List.mem_cons_self a u)
    exact ⟨ha.1, of_decide_eq_true ha.2⟩
  · dsimp only
    have hp : p ∈ [1, 6, 11].filter (macMinimal nets) := hf ▸ List.mem_cons_self p t
    have hp' := List.mem_filter.mp hp
    refine ⟨?_, of_decide_eq_true hp'.2⟩
    have hmem : p = 1 ∨ p = 6 ∨ p = 11 := by simpa using hp'.1
    rcases hmem with rfl | rfl | rfl <;> decide

theorem find_macos_prefers_one (nets : List ℕ) (h : macMinimal nets 1 = true) :
    find_macos_best_channel (some nets) = 1 := by
  unfold find_macos_best_channel
  dsimp only
  rw [macPreferred_eq, List.filter_cons_of_pos h]

theorem find_macos_prefers_six (nets : List ℕ) (h1 : macMinimal nets 1 = false)
    (h6 : macMinimal nets 6 = true) :
    find_macos_best_channel (some nets) = 6 := by
  unfold find_macos_best_channel
  dsimp only
  rw [macPreferred_eq, List.filter_cons_of_neg (by simp [h1]), List.filter_cons_of_pos h6]

theorem find_macos_prefers_eleven (nets : List ℕ) (h1 : macMinimal nets 1 = false)
    (h6 : macMinimal nets 6 = false) (h11 : macMinimal nets 11 = true) :
    find_macos_best_channel (some nets) = 11 := by
  unfold find_macos_best_channel
  dsimp only
  rw [macPreferred_eq, List.filter_cons_of_neg (by simp [h1]),
    List.filter_cons_of_neg (by simp [h6]), List.filter_cons_of_pos h11]

theorem macMinimal_one_scenario :
    macMinimal [2, 3, 4, 5, 6, 7, 8, 9, 10, 11] 1 = true := by
  have husage1 : macUsage [2, 3, 4, 5, 6, 7, 8, 9, 10, 11] 1 = 1 := by
    unfold macUsage
    norm_num [List.countP_cons]
  apply decide_eq_true
  intro j hj
  rw [husage1]
  fin_cases hj <;> (unfold macUsage; norm_num [List.countP_cons])

theorem find_windows_characterization (nets : List ℕ) (h : nets ≠ []) :
    (find_windows_best_channel nets = 1 ∨ find_windows_best_channel nets = 6 ∨
      find_windows_best_channel nets = 11) ∧
    (∀ p ∈ [1, 6, 11],
      windows_overlap_count nets (find_windows_best_channel nets) ≤
        windows_overlap_count nets p) ∧
    (windows_overlap_count nets 1 ≤ windows_overlap_count nets 6 →
      windows_overlap_count nets 1 ≤ windows_overlap_count nets 11 →
      find_windows_best_channel nets = 1) ∧
    (windows_overlap_count nets 6 < windows_overlap_count nets 1 →
      windows_overlap_count nets 6 ≤ windows_overlap_count nets 11 →
      find_windows_best_channel nets = 6) ∧
    (windows_overlap_count nets 11 < windows_overlap_count nets 1 →
      windows_overlap_count nets 11 < windows_overlap_count nets 6 →
      find_windows_best_channel nets = 11) := by
  unfold find_windows_best_channel
  rw [if_neg (by simp [List.isEmpty_iff, h])]
  dsimp only
  split_ifs with h1 h2 h3 <;>
    refine ⟨by tauto, ?_, by omega, by omega, by omega⟩ <;>
      (intro p hp
       have hp' : p = 1 ∨ p = 6 ∨ p = 11 := by simpa using hp
       rcases hp' with rfl | rfl | rfl <;> omega)

/-- C3 counterexample: under the claim's weighting (1.0 same channel, 0.5 at
distance 1-2, 0 beyond), a scan with one network on each of the channels
1, 6 and 11 gives channel 4 a weighted count of 0.5 but the selected channel 1
a weighted count of 1.0, so `find_windows_best_channel` does not select a
channel with minimum weighted count (it counts full weight 1.0 within distance
2 and only considers the candidates 1, 6, 11). -/
theorem best_channel_counterexample :
    find_windows_best_channel [1, 6, 11] = 1 ∧
    (4 : ℕ) ∈ macosChannels ∧
    claim_weighted_count [1, 6, 11] 4 < claim_weighted_count [1, 6, 11] 1 := by
  refine ⟨by decide, by decide, ?_⟩
  unfold claim_weighted_count
  norm_num

/-- C3 (amended): `find_windows_best_channel` returns 6 on an empty scan and
otherwise returns the first of the candidate channels 1, 6, 11 minimizing the
full-weight count of networks within 2 channels (no half weights, and no
candidates outside {1, 6, 11}): 1 whenever its count is minimal, else 6
whenever its count is minimal, else 11; `find_macos_best_channel` returns 6
when no scan data is available and otherwise implements the claimed weighting
(1.0 same channel, 0.5 at distance 1-2 over channels 1-11), selecting a
minimal-usage channel and preferring 1, then 6, then 11 among the minimal
ones; on the scan with one network on each of channels 2-11 and none on
channel 1, both return 1. -/
theorem best_channel_amended :
    find_windows_best_channel [] = 6 ∧
    (∀ nets : List ℕ, nets ≠ [] →
      (find_windows_best_channel nets = 1 ∨ find_windows_best_channel nets = 6 ∨
        find_windows_best_channel nets = 11) ∧
      (∀ p ∈ [1, 6, 11],
        windows_overlap_count nets (find_windows_best_channel nets) ≤
          windows_overlap_count nets p) ∧
      (windows_overlap_count nets 1 ≤ windows_overlap_count nets 6 →
        windows_overlap_count nets 1 ≤ windows_overlap_count nets 11 →
        find_windows_best_channel nets = 1) ∧
      (windows_overlap_count nets 6 < windows_overlap_count nets 1 →
        windows_overlap_count nets 6 ≤ windows_overlap_count nets 11 →
        find_windows_best_channel nets = 6) ∧
      (windows_overlap_count nets 11 < windows_overlap_count nets 1 →
        windows_overlap_count nets 11 < windows_overlap_count nets 6 →
        find_windows_best_channel nets = 11)) ∧
    find_macos_best_channel none = 6 ∧
    (∀ nets : List ℕ,
      find_macos_best_channel (some nets) ∈ macosChannels ∧
      (∀ j ∈ macosChannels,
        macUsage nets (find_macos_best_channel (some nets)) ≤ macUsage nets j) ∧
      (macMinimal nets 1 = true → find_macos_best_channel (some nets) = 1) ∧
      (macMinimal nets 1 = false → macMinimal nets 6 = true →
        find_macos_best_channel (some nets) = 6) ∧
      (macMinimal nets 1 = false → macMinimal nets 6 = false → macMinimal nets 11 = true →
        find_macos_best_channel (some nets) = 11)) ∧
    find_windows_best_channel [2, 3, 4, 5, 6, 7, 8, 9, 10, 11] = 1 ∧
    find_macos_best_channel (some [2, 3, 4, 5, 6, 7, 8, 9, 10, 11]) = 1 := by
  refine ⟨by decide, ?_, rfl, ?_, by decide,
    find_macos_prefers_one _ macMinimal_one_scenario⟩
  · intro nets h
    exact find_windows_characterization nets h
  · intro nets
    obtain ⟨hmem, hmin⟩ := find_macos_minimal nets
    exact ⟨hmem, hmin, find_macos_prefers_one nets,
      find_macos_prefers_six nets, find_macos_prefers_eleven nets⟩

/-- Witness for C3 (amended): concrete single-network scan on channel 6 —
the Windows selection returns a candidate whose overlap count is minimal. -/
theorem best_channel_amended_witness :
    find_windows_best_channel [6] = 1 ∧
    find_windows_best_channel [1, 1, 6, 11] = 6 ∧
    windows_overlap_count [6] (find_windows_best_channel [6]) ≤
      windows_overlap_count [6] 6 :=
  ⟨(best_channel_amended.2.1 [6] (by decide)).2.2.1 (by decide) (by decide),
   (best_channel_amended.2.1 [1, 1, 6, 11] (by decide)).2.2.2.1 (by decide) (by decide),
   (best_channel_amended.2.1 [6] (by decide)).2.1 6 (by decide)⟩

end SignalBooster
